import Mathlib

/-!
Shallow embedding of `src/gdnp.py` (a GDML → MCNP geometry converter) and
verification of the specification's claims about it.

Modelling conventions:
* Python floats are modelled by `ℚ`.  Every numeric value appearing in the
  claims is exactly representable, and none of the claims depends on
  floating-point rounding.  (Python 2's `str(float)` truncation to 12
  significant digits, used when the intersection branch re-packs a placement
  into a position record, is likewise exact on all inputs considered here.)
* XML attribute dictionaries are modelled post-parsing: the converters read
  `float(volume[key])`, so the record fields hold the parsed numbers.  A
  missing attribute (a Python `KeyError` on the dict) is outside the modelled
  domain; the claims only concern well-formed records.
* Python exceptions are modelled by `Except Err`: `KeyError` from the unit
  table, the `NotImplemented` exception class of gdnp.py, and the
  `IndexError`/`TypeError` that the dispatch in `convert_gdml_volume` would
  raise on degenerate tags.
-/

namespace Gdnp

/-- A Python exception escaping from gdnp.py. -/
inductive Err where
  /-- `KeyError` — an unrecognized unit string or unresolved reference. -/
  | keyError (k : String)
  /-- gdnp.py's own `NotImplemented` exception (line 240), raised with the
  identifying detail (solid tag, operator name, "extruded tube", ...). -/
  | notImplemented (tag : String)
  /-- `IndexError` — `volume[3]` on a 2-tuple (a base solid tagged
  "intersection" reaching line 255). -/
  | indexError
  /-- `TypeError` — a converter called with a tuple instead of an attribute
  dict (name-collision tags such as "unit"/"position"/"volume", or a boolean
  tuple dispatched to a primitive converter). -/
  | typeError
deriving DecidableEq, Repr

/-- A GDML `position` record: parsed x/y/z attributes and the unit string.
Source: the attrib dicts consumed by `convert_gdml_position` (line 234). -/
structure PosRec where
  x : ℚ
  y : ℚ
  z : ℚ
  unit : String
deriving DecidableEq, Repr

/-- A placement, already converted to centimeters. -/
abbrev Vec3 := ℚ × ℚ × ℚ

/-- The attributes of a primitive solid that the converters read.  `tube`
reads startphi, deltaphi, lunit, rmax, z; `ellipsoid` reads ax, by, cz,
zcut1, zcut2 (and never reads lunit — see claim C9). -/
structure Attrib where
  startphi : ℚ
  deltaphi : ℚ
  lunit : String
  rmax : ℚ
  z : ℚ
  ax : ℚ
  «by» : ℚ
  cz : ℚ
  zcut1 : ℚ
  zcut2 : ℚ
deriving DecidableEq, Repr

/-- A solid as stored by `load_gdml` (lines 55-63): either a base volume
`(tag, attrib)` or the one-level unwrap of a boolean volume
`(tag, (first.tag, first.attrib), (second.tag, second.attrib),
position.attrib)`.  The operands of a boolean are always `(tag, attrib)`
pairs — `load_gdml` never nests boolean tuples. -/
inductive Volume where
  | base (tag : String) (attrib : Attrib)
  | bool3 (tag : String) (first : String × Attrib) (second : String × Attrib)
      (offset : PosRec)
deriving DecidableEq, Repr

/-- One MCNP surface specification as produced by the converters: a tuple
`(sign, kind, numeric args...)`, e.g. `(-1, "CZ", r)`. -/
structure SurfSpec where
  sign : Int
  kind : String
  args : List ℚ
deriving DecidableEq, Repr

/-- `convert_gdml_unit` (line 228): the fixed unit table; an unknown unit
string raises `KeyError`. -/
def convert_gdml_unit (unit : String) : Except Err ℚ :=
  if unit = "m" then .ok 100
  else if unit = "cm" then .ok 1
  else if unit = "mm" then .ok (1/10)
  else if unit = "g/cm3" then .ok 1
  else .error (.keyError unit)

/-- `convert_gdml_position` (line 234): scale the x/y/z fields by the unit
factor. -/
def convert_gdml_position (p : PosRec) : Except Err Vec3 := do
  let u ← convert_gdml_unit p.unit
  .ok (p.x * u, p.y * u, p.z * u)

/-- Lines 247-250 of `convert_gdml_volume`: the placement is the converted
position record, or `(0, 0, 0)` when the position is `None`. -/
def placementOf : Option PosRec → Except Err Vec3
  | some p => convert_gdml_position p
  | none => .ok (0, 0, 0)

/-- `convert_gdml_tube` (line 273): rejects partial sweeps and lateral
offsets, converts rmax and z through the declared lunit, and emits the
cylinder and the two capping planes. -/
def convert_gdml_tube (volume : Attrib) (placement : Vec3) :
    Except Err (List SurfSpec) :=
  if volume.startphi ≠ 0 ∨ volume.deltaphi < 360 then
    .error (.notImplemented "extruded tube")
  else if placement.1 ≠ 0 ∨ placement.2.1 ≠ 0 then
    .error (.notImplemented "offset tube")
  else do
    let u ← convert_gdml_unit volume.lunit
    let r := volume.rmax * u
    let dz := volume.z * u
    .ok [⟨-1, "CZ", [r]⟩,
         ⟨1, "PZ", [-0.5 * dz + placement.2.2]⟩,
         ⟨-1, "PZ", [0.5 * dz + placement.2.2]⟩]

/-- `convert_gdml_ellipsoid` (line 290): reads ax, by, cz, zcut1, zcut2 as
raw floats (no lunit scaling), emits the SQ quadric — note the source puts
the constant `1`, not `-1`, as the seventh coefficient (line 295) — and the
optional capping planes. -/
def convert_gdml_ellipsoid (volume : Attrib) (placement : Vec3) :
    Except Err (List SurfSpec) :=
  let sq : SurfSpec :=
    ⟨-1, "SQ", [1 / (volume.ax * volume.ax), 1 / (volume.«by» * volume.«by»),
                1 / (volume.cz * volume.cz),
                0, 0, 0, 1, placement.1, placement.2.1, placement.2.2]⟩
  let bot : List SurfSpec :=
    if volume.zcut1 > -volume.cz then [⟨1, "PZ", [volume.zcut1 + placement.2.2]⟩]
    else []
  let top : List SurfSpec :=
    if volume.zcut2 < volume.cz then [⟨-1, "PZ", [volume.zcut2 + placement.2.2]⟩]
    else []
  .ok ([sq] ++ bot ++ top)

/-- The dynamic dispatch of lines 264-270: `globals()["convert_gdml_" + tag]`.
Only `convert_gdml_tube` and `convert_gdml_ellipsoid` are converters; the
name-collision tags "unit"/"position"/"volume" would resolve to the utility
functions and fail with `TypeError` on their tuple argument; any other tag is
a `KeyError` turned into `NotImplemented(tag)` (lines 267-268).  A base solid
tagged "intersection" instead reaches line 255 and dies on `volume[3]` with
`IndexError`; that case is handled by the caller below. -/
def convert_base (tag : String) (attrib : Attrib) (placement : Vec3) :
    Except Err (List SurfSpec) :=
  if tag = "tube" then convert_gdml_tube attrib placement
  else if tag = "ellipsoid" then convert_gdml_ellipsoid attrib placement
  else if tag = "unit" ∨ tag = "position" ∨ tag = "volume" then .error .typeError
  else .error (.notImplemented tag)

/-- The recursive call `convert_gdml_volume(volume[1], position)` made by the
intersection branch (lines 260-261): the operand is a `(tag, attrib)` pair,
so the recursion recomputes the placement from the position record and goes
straight to the dispatch. -/
def convert_dispatch (tag : String) (attrib : Attrib) (position : Option PosRec) :
    Except Err (List SurfSpec) := do
  let placement ← placementOf position
  if tag = "intersection" then .error .indexError
  else convert_base tag attrib placement

/-- `convert_gdml_volume` (line 244).  The placement is computed first
(lines 247-250, can raise `KeyError`); an `intersection` boolean converts its
first operand at the original position and its second operand at
`placement + offset`, re-expressed as a synthetic "cm" position record
(lines 254-262); any other boolean tag fails in the dispatch —
`union`/`subtraction` as `NotImplemented(tag)` (lines 265-268). -/
def convert_gdml_volume : Volume → Option PosRec → Except Err (List SurfSpec)
  | .base tag attrib, position => convert_dispatch tag attrib position
  | .bool3 tag f s off, position => do
    let placement ← placementOf position
    if tag = "intersection" then do
      let transform ← convert_gdml_position off
      let t : PosRec := ⟨placement.1 + transform.1, placement.2.1 + transform.2.1,
                         placement.2.2 + transform.2.2, "cm"⟩
      let s1 ← convert_dispatch f.1 f.2 position
      let s2 ← convert_dispatch s.1 s.2 (some t)
      .ok (s1 ++ s2)
    else if tag = "tube" ∨ tag = "ellipsoid" ∨ tag = "unit" ∨ tag = "position"
            ∨ tag = "volume" then
      -- a converter applied to a boolean tuple: Python TypeError
      .error .typeError
    else
      .error (.notImplemented tag)

/-- The canonical identity of a surface in the `MCNPSurface` registry
(line 108): the tuple `s[1:]` — kind tag and numeric arguments, the sign
excluded.  The source stringifies the tuple with `map(str, ...)`; on the
rationals modelled here that normalization is injective, so the key is kept
as the pair itself. -/
abbrev SKey := String × List ℚ

/-- The registry key computed at the call site (line 161): `s[1:]` of a
surface spec `(sign, kind, args...)` — the sign is dropped. -/
def surfKey (s : SurfSpec) : SKey := (s.kind, s.args)

/-- Dictionary lookup `self.surfaces[args]` modelled on the insertion-ordered
list of keys: the position of the first occurrence. -/
def findIndex (st : List SKey) (k : SKey) : Option Nat :=
  match st with
  | [] => none
  | x :: rest => if x = k then some 0 else (findIndex rest k).map (· + 1)

/-- `MCNPSurface.__init__` (lines 107-117): fetch the key's index if it is
already registered, else append it and give it index `len(surfaces)` after
the insertion, i.e. the first-seen position plus one. -/
def intern (st : List SKey) (k : SKey) : Nat × List SKey :=
  match findIndex st k with
  | some i => (i + 1, st)
  | none => (st.length + 1, st ++ [k])

/-- Line 161: intern every produced surface spec in order and multiply each
resulting index by the spec's sign, threading the registry. -/
def registerOuter : List SKey → List SurfSpec → List Int × List SKey
  | st, [] => ([], st)
  | st, s :: rest =>
    let r := intern st (surfKey s)
    let rec' := registerOuter r.2 rest
    (s.sign * (r.1 : Int) :: rec'.1, rec'.2)

/-- The registry only ever grows at the end: positions already assigned keep
their key. -/
def RegExtends (st st' : List SKey) : Prop :=
  ∀ n x, st.get? n = some x → st'.get? n = some x

/-- `re.sub("0x.......", "", s)` (lines 74 and 146): delete every leftmost,
non-overlapping occurrence of `0x` followed by seven further characters.
(`.` does not match a newline; the names handled here contain none.) -/
def sanitizeChars : List Char → List Char
  | [] => []
  | c :: rest =>
    if c = '0' ∧ rest.head? = some 'x' ∧ 8 ≤ rest.length then
      sanitizeChars (rest.drop 8)
    else c :: sanitizeChars rest
termination_by l => l.length
decreasing_by
  · simp only [List.length_cons, List.length_drop]
    omega
  · simp only [List.length_cons]
    omega

def sanitize (s : String) : String := String.mk (sanitizeChars s.data)

/-- A GDML material element as consumed by `MCNPMaterial.__init__`
(lines 137-150): its name attribute and the parsed `D` (density) child's
value and unit. -/
structure GMaterial where
  name : String
  dvalue : ℚ
  dunit : String
deriving DecidableEq, Repr

/-- A registered material: `{index, density, name}` (lines 143-146). -/
structure MatRec where
  index : Nat
  density : ℚ
  name : String
deriving DecidableEq, Repr

/-- `MCNPMaterial.__init__` (lines 137-150): fetch by raw GDML name, or
register with index `len(materials)` after insertion, density scaled through
the density unit (a bad unit raises `KeyError`), and the sanitized name.
(On that `KeyError` the source leaves a half-initialized entry in the class
dict; the run aborts immediately, so the discarded state is unobservable.) -/
def internMaterial (st : List (String × MatRec)) (m : GMaterial) :
    Except Err (MatRec × List (String × MatRec)) :=
  match st.find? (fun x => x.1 == m.name) with
  | some r => .ok (r.2, st)
  | none => do
    let u ← convert_gdml_unit m.dunit
    let rec' : MatRec := ⟨st.length + 1, m.dvalue * u, sanitize m.name⟩
    .ok (rec', st ++ [(m.name, rec')])

/-- One registered MCNP cell (lines 124-130): name, 1-based index
(`len(cells) + 1` computed before the append), material index, density, and
the space-joined surface term. -/
structure CellRec where
  name : String
  index : Nat
  material : Nat
  density : ℚ
  surfaces : String
deriving DecidableEq, Repr

/-- The three registries of `dump_mcnp`.  In the source they are class
attributes of `MCNPSurface` / `MCNPCell` / `MCNPMaterial`; those classes are
defined *inside the body of `dump_mcnp`* (lines 102-150), so every invocation
of `dump_mcnp` re-executes the class statements and starts from fresh, empty
registries.  The embedding therefore threads a `DumpState` that `dump_mcnp`
initializes to `emptyState` on each call. -/
structure DumpState where
  surfaces : List SKey
  cells : List CellRec
  materials : List (String × MatRec)
deriving DecidableEq, Repr

def emptyState : DumpState := ⟨[], [], []⟩

/-- A cell node of the ownership tree as consumed by `dump_mcnp`: the dict
built by `load_gdml` (line 75), with the volume already sorted into the
`Volume` shape and resolved children attached. -/
inductive DCell where
  | mk (name : String) (volume : Volume) (position : Option PosRec)
      (material : GMaterial) (children : List DCell)

/-- The boolean term a processed cell returns to its parent (line 170):
`"(" + ":".join(str(-i) for i in outer_surfaces) + ")"`. -/
def innerTerm (outer : List Int) : String :=
  "(" ++ String.intercalate ":" (outer.map (fun i => toString (-i))) ++ ")"

mutual
/-- `process_cell` (lines 153-170): process all children first (collecting
their boolean terms), convert the volume at the cell's position, intern the
outer surfaces, intern the material, append the cell record with the
space-joined term `outer_surfaces + inner_surfaces`, and return this cell's
own parenthesized boolean term. -/
def processCell : DumpState → DCell → Except Err (String × DumpState)
  | st, .mk name volume position material children => do
    let ic ← processChildren st children
    let surfaces ← convert_gdml_volume volume position
    let ro := registerOuter ic.2.surfaces surfaces
    let mr ← internMaterial ic.2.materials material
    let cell : CellRec := ⟨name, ic.2.cells.length + 1, mr.1.index, mr.1.density,
      String.intercalate " " (ro.1.map toString ++ ic.1)⟩
    .ok (innerTerm ro.1, ⟨ro.2, ic.2.cells ++ [cell], mr.2⟩)

/-- The loop of lines 155-157: process the children left to right, threading
the registries and collecting the returned boolean terms. -/
def processChildren : DumpState → List DCell → Except Err (List String × DumpState)
  | st, [] => .ok ([], st)
  | st, c :: cs => do
    let r ← processCell st c
    let rs ← processChildren r.2 cs
    .ok (r.1 :: rs.1, rs.2)
end

/-- `"{:5d}".format(index)` (line 188). -/
def format_index (i : Nat) : String :=
  let s := toString i
  String.mk (List.replicate (5 - s.length) ' ') ++ s

/-- The surface-card block (lines 210-212): the `(index, args)` pairs sorted
by index are exactly the registry in insertion order; each card joins the
key's kind tag and arguments. -/
def surfaceLines (ks : List SKey) : List String :=
  ks.enum.map (fun p =>
    format_index (p.1 + 1) ++ " " ++ p.2.1 ++ " "
      ++ String.intercalate " " (p.2.2.map toString))

/-- The writer part of `dump_mcnp` (lines 178-225), modelled line by line.
Text wrapping to 79 columns and the exact float formatting are out of scope
per the specification (§1: layout is an external collaborator); the line
structure and ordering are kept. -/
def renderDeck (filename : String) (st : DumpState) : List String :=
  ["----- CONVERTED BY GDNP.PY FROM " ++ (filename.toUpper.take 47), "",
   "C " ++ String.mk (List.replicate 77 '-'), "C --- CELL CARDS",
   "C " ++ String.mk (List.replicate 77 '-')]
  ++ (st.cells.map (fun c =>
        ["C --- " ++ c.name,
         format_index c.index ++ " " ++ toString c.material ++ " "
           ++ toString c.density ++ " " ++ c.surfaces])).join
  ++ ["", "C " ++ String.mk (List.replicate 77 '-'), "C --- SURFACE CARDS",
      "C " ++ String.mk (List.replicate 77 '-')]
  ++ surfaceLines st.surfaces
  ++ ["", "C " ++ String.mk (List.replicate 77 '-'), "C --- DATA CARDS",
      "C " ++ String.mk (List.replicate 77 '-')]
  ++ (st.materials.map (fun p =>
        ["C --- MATERIAL : " ++ p.2.name,
         "M" ++ toString p.2.index ++ " $ TODO: fill me"])).join

/-- `dump_mcnp` (line 99).  The registries start empty on every invocation
(the registry classes are defined in the function body).  `process_cell(world)`
runs to completion at line 172 *before* the output file is opened at
line 176; accordingly the deck lines exist only when the whole recursive
emission succeeded, and a failure propagates with nothing written. -/
def dump_mcnp (gdmlName : String) (world : DCell) : Except Err (List String) := do
  let r ← processCell emptyState world
  .ok (renderDeck gdmlName r.2)

/-- A `physvol` child-placement entry of a structure: the `volumeref`
attribute and the optional `position` element. -/
structure Physvol where
  volumeref : String
  position : Option PosRec
deriving DecidableEq, Repr

/-- One `structure` entry of the GDML document, reduced to the parts
`load_gdml`'s child-linking pass reads: its name (the dict key, line 73) and
its `physvol` entries (line 70).  The solid and material references resolved
in lines 52-67 play no role in that pass. -/
structure GStructure where
  name : String
  physvols : List Physvol
deriving DecidableEq, Repr

/-- A cell dict after `load_gdml` finishes.  `rawChildren` is the `physvol`
list stored at line 75; `resolved` is the list written over it by the second
pass (line 90), recorded as the referenced cells' names (cell identity is by
reference id); `position` is the attribute assigned at line 88. -/
structure GCell where
  name : String
  rawChildren : List Physvol
  position : Option PosRec
  resolved : Option (List String)
deriving DecidableEq, Repr

/-- The mutation `sub_cell["position"] = position.attrib` (lines 86-88),
performed for each physvol of the iterated list that carries a position
element: the referenced cells' position attributes are overwritten. -/
def applyPositions (cells : List GCell) (phys : List Physvol) : List GCell :=
  phys.foldl (fun cs p =>
    cs.map (fun c =>
      if c.name = p.volumeref then
        match p.position with
        | some pos => ⟨c.name, c.rawChildren, some pos, c.resolved⟩
        | none => c
      else c)) cells

/-- The child-linking pass of `load_gdml` (lines 78-90).  The inner loop at
line 83 reads `for child in children:` — `children` is NOT `cell["children"]`
but the loop variable left over from line 70 of the first pass, i.e. the
LAST structure's physvol list.  Hence, in the final state: (i) the cells
referenced by the last structure's physvols get their positions from those
physvols (the assignment is repeated once per parent and is idempotent, so
dict iteration order is immaterial), and (ii) every cell whose own physvol
list is nonempty gets its resolved children from the last structure's
physvol list.  The shared mutable cell dicts are modelled by recording
resolved children by name. -/
def load_gdml_link (structures : List GStructure) : List GCell :=
  let cells := structures.map
    (fun s => (⟨s.name, s.physvols, none, none⟩ : GCell))
  let lastPhys := match structures.getLast? with
    | some s => s.physvols
    | none => []
  let anyKids := cells.any (fun c => !c.rawChildren.isEmpty)
  let cells2 := if anyKids then applyPositions cells lastPhys else cells
  cells2.map (fun c =>
    if c.rawChildren.isEmpty then c
    else ⟨c.name, c.rawChildren, c.position,
          some (lastPhys.map (fun p => p.volumeref))⟩)

/-- Lookup of a cell by its reference id. -/
def findCell (cells : List GCell) (n : String) : Option GCell :=
  cells.find? (fun c => c.name == n)

/-- Test fixtures used by the witnesses and counterexamples. -/
def tubA : Attrib := ⟨0, 360, "cm", 10, 20, 0, 0, 0, 0, 0⟩

def tubB : Attrib := ⟨0, 360, "cm", 1, 2, 0, 0, 0, 0, 0⟩

def tubC : Attrib := ⟨0, 360, "cm", 2, 4, 0, 0, 0, 0, 0⟩

def ellA : Attrib := ⟨0, 0, "cm", 0, 0, 1, 1, 1, -1, 1⟩

def matA : GMaterial := ⟨"MA0x1234567", 1, "g/cm3"⟩

def matB : GMaterial := ⟨"MB", 2, "g/cm3"⟩

def matC : GMaterial := ⟨"MC", 3, "g/cm3"⟩

/-- A one-cell world: a full tube of radius 10 and height 20, material MA. -/
def wOne : DCell := .mk "w" (.base "tube" tubA) none matA []

/-- A world whose solid is an (unimplemented) union. -/
def wUnion : DCell :=
  .mk "w" (.bool3 "union" ("tube", tubA) ("tube", tubB) ⟨0, 0, 0, "cm"⟩)
    none matA []

/-- A world with two children that reference the same solid and the same
material. -/
def wShared : DCell := .mk "w" (.base "tube" tubA) none matA
  [.mk "c1" (.base "tube" tubB) none matB [],
   .mk "c2" (.base "tube" tubB) none matB []]

/-- Document for claim C1: four structures in document order; `S1`'s own
physvol references `A` (with a position), `S2` — the last structure — has a
physvol referencing `B`. -/
def c1Structures : List GStructure :=
  [⟨"A", []⟩, ⟨"B", []⟩,
   ⟨"S1", [⟨"A", some ⟨1, 0, 0, "cm"⟩⟩]⟩,
   ⟨"S2", [⟨"B", some ⟨2, 0, 0, "cm"⟩⟩]⟩]

/-- Replace only the `lunit` attribute of a solid's attribute dict. -/
def setLunit (a : Attrib) (u : String) : Attrib :=
  ⟨a.startphi, a.deltaphi, u, a.rmax, a.z, a.ax, a.«by», a.cz, a.zcut1, a.zcut2⟩

/-- The registry state left behind by one complete emission run, when the run
succeeds. -/
def runState (w : DCell) : Option DumpState :=
  match processCell emptyState w with
  | .ok r => some r.2
  | .error _ => none

/-- The surface registry after one run. -/
def runSurfaces (w : DCell) : Option (List SKey) :=
  (runState w).map DumpState.surfaces

/-- The number of cell records after one run. -/
def runCellCount (w : DCell) : Option Nat :=
  (runState w).map (fun st => st.cells.length)

/-- The number of material records after one run. -/
def runMatCount (w : DCell) : Option Nat :=
  (runState w).map (fun st => st.materials.length)

/-! ### Lemmas about the surface registry -/

theorem findIndex_get (st : List SKey) (k : SKey) :
    ∀ i, findIndex st k = some i → st.get? i = some k := by
  induction st with
  | nil => intro i h; simp [findIndex] at h
  | cons x rest ih =>
    intro i h
    by_cases hx : x = k
    · simp [findIndex, hx] at h
      subst h; simp [hx]
    · simp [findIndex, hx] at h
      obtain ⟨j, hj, rfl⟩ := h
      simpa using ih j hj

theorem findIndex_append_self (st : List SKey) (k : SKey)
    (h : findIndex st k = none) : findIndex (st ++ [k]) k = some st.length := by
  induction st with
  | nil => simp [findIndex]
  | cons x rest ih =>
    by_cases hx : x = k
    · simp [findIndex, hx] at h
    · simp [findIndex, hx] at h
      simp [findIndex, hx, ih h]

theorem intern_pos (st : List SKey) (k : SKey) : 0 < (intern st k).1 := by
  unfold intern
  cases h : findIndex st k <;> simp

theorem intern_get (st : List SKey) (k : SKey) :
    (intern st k).2.get? ((intern st k).1 - 1) = some k := by
  unfold intern
  cases h : findIndex st k with
  | none => simp [List.get?_concat_length]
  | some i => simpa using findIndex_get st k i h

theorem intern_le (st : List SKey) (k : SKey) :
    (intern st k).1 ≤ (intern st k).2.length := by
  unfold intern
  cases h : findIndex st k with
  | none => simp
  | some i =>
    have := findIndex_get st k i h
    have hi : i < st.length := List.get?_eq_some.mp this |>.1
    simpa using hi

theorem regExtends_refl (st : List SKey) : RegExtends st st := fun _ _ h => h

theorem regExtends_trans {a b c : List SKey} (h1 : RegExtends a b)
    (h2 : RegExtends b c) : RegExtends a c := fun n x h => h2 n x (h1 n x h)

theorem intern_extends (st : List SKey) (k : SKey) :
    RegExtends st (intern st k).2 := by
  unfold intern
  cases h : findIndex st k with
  | some i => exact regExtends_refl st
  | none =>
    intro n x hx
    have hn : n < st.length := List.get?_eq_some.mp hx |>.1
    rw [List.get?_eq_getElem?] at hx ⊢
    rw [List.getElem?_append_left hn]
    exact hx

theorem registerOuter_extends (st : List SKey) (l : List SurfSpec) :
    RegExtends st (registerOuter st l).2 := by
  induction l generalizing st with
  | nil => exact regExtends_refl st
  | cons s rest ih =>
    exact regExtends_trans (intern_extends st (surfKey s))
      (ih (intern st (surfKey s)).2)

theorem registerOuter_length (st : List SKey) (l : List SurfSpec) :
    (registerOuter st l).1.length = l.length := by
  induction l generalizing st with
  | nil => rfl
  | cons s rest ih => simpa [registerOuter] using ih (intern st (surfKey s)).2

/-- Soundness of line 161: the j-th signed outer index is the j-th surface's
sign times a positive registry index, and that registry slot holds exactly
the surface's canonical key. -/
theorem registerOuter_sound (st : List SKey) (l : List SurfSpec) :
    ∀ j s, l.get? j = some s → ∃ i : Nat, 0 < i ∧
      (registerOuter st l).1.get? j = some (s.sign * (i : Int)) ∧
      (registerOuter st l).2.get? (i - 1) = some (surfKey s) := by
  induction l generalizing st with
  | nil => intro j s h; simp at h
  | cons a rest ih =>
    intro j s h
    cases j with
    | zero =>
      obtain rfl : a = s := by simpa using h
      refine ⟨(intern st (surfKey a)).1, intern_pos st (surfKey a), ?_, ?_⟩
      · simp [registerOuter]
      · have hget := intern_get st (surfKey a)
        have hext := registerOuter_extends (intern st (surfKey a)).2 rest
        simpa [registerOuter] using hext _ _ hget
    | succ j' =>
      rw [List.get?_cons_succ] at h
      obtain ⟨i, hi, h1, h2⟩ := ih (intern st (surfKey a)).2 j' s h
      exact ⟨i, hi, by simpa [registerOuter] using h1, by
        simpa [registerOuter] using h2⟩

/-- `MCNPMaterial.__init__` succeeds whenever the material's density unit is
recognized (and always when the name was already registered). -/
theorem internMaterial_ok (st : List (String × MatRec)) (m : GMaterial) (u : ℚ)
    (hu : convert_gdml_unit m.dunit = .ok u) :
    ∃ r ms, internMaterial st m = .ok (r, ms) := by
  cases h : st.find? (fun x => x.1 == m.name) with
  | some p => exact ⟨p.2, st, by simp [internMaterial, h]⟩
  | none =>
    exact ⟨⟨st.length + 1, m.dvalue * u, sanitize m.name⟩,
      st ++ [(m.name, ⟨st.length + 1, m.dvalue * u, sanitize m.name⟩)],
      by simp [internMaterial, h, hu, Bind.bind, Except.bind, Except.instMonad]⟩

/-- Evaluation of `process_cell` on a childless cell: convert the volume,
intern the outer surfaces, intern the material, append one cell record with
index `len(cells) + 1`. -/
theorem processCell_leaf (st : DumpState) (n : String) (v : Volume)
    (p : Option PosRec) (m : GMaterial) (l : List SurfSpec) (r : MatRec)
    (ms : List (String × MatRec))
    (hv : convert_gdml_volume v p = .ok l)
    (hm : internMaterial st.materials m = .ok (r, ms)) :
    processCell st (.mk n v p m []) =
      .ok (innerTerm (registerOuter st.surfaces l).1,
        ⟨(registerOuter st.surfaces l).2,
         st.cells ++ [⟨n, st.cells.length + 1, r.index, r.density,
           String.intercalate " " ((registerOuter st.surfaces l).1.map toString)⟩],
         ms⟩) := by
  simp [processCell, processChildren, hv, hm, Bind.bind, Except.bind,
        Except.instMonad]

/-! ### Claim theorems -/

/-- Claim C1 (code bug): the claim says every cell's resolved children come
from that cell's own physvol entries, with positions from that parent's own
placement records.  The code instead iterates the loop variable `children`
leaked from the first pass (line 83), i.e. the LAST structure's physvol
list: on `c1Structures`, `S1` — whose own physvol references `A` — resolves
to children `["B"]`, and `A` never receives the position carried by `S1`'s
physvol. -/
theorem children_resolved_from_last_structure :
    (findCell (load_gdml_link c1Structures) "S1").map GCell.resolved
      = some (some ["B"])
    ∧ (findCell (load_gdml_link c1Structures) "A").map GCell.position
      = some none
    ∧ c1Structures.map (fun s => (s.name, s.physvols.map Physvol.volumeref))
      = [("A", []), ("B", []), ("S1", ["A"]), ("S2", ["B"])] := by
  refine ⟨?_, ?_, ?_⟩ <;>
    simp [load_gdml_link, applyPositions, findCell, c1Structures]

/-- Claim C2 (code bug): for the unit ellipsoid at the origin the single
emitted SQ card carries coefficient sequence `1, 1, 1, 0, 0, 0, 1` — the
seventh coefficient is `+1` (line 295 of the source), not the `-1` the claim
(and the quadric `x²/ax² + y²/by² + z²/cz² = 1`) requires. -/
theorem ellipsoid_sq_constant_term_is_one :
    convert_gdml_volume (.base "ellipsoid" ellA) none =
      .ok [⟨-1, "SQ", [1, 1, 1, 0, 0, 0, 1, 0, 0, 0]⟩]
    ∧ ¬ convert_gdml_volume (.base "ellipsoid" ellA) none =
        .ok [⟨-1, "SQ", [1, 1, 1, 0, 0, 0, -1, 0, 0, 0]⟩] := by
  have h : convert_gdml_volume (.base "ellipsoid" ellA) none =
      .ok [⟨-1, "SQ", [1, 1, 1, 0, 0, 0, 1, 0, 0, 0]⟩] := by
    simp [convert_gdml_volume, convert_dispatch, convert_base,
          convert_gdml_ellipsoid, placementOf, ellA, Bind.bind, Except.bind, Except.instMonad]
  refine ⟨h, ?_⟩
  rw [h]
  simp
  norm_num

/-- Claim C3: surface interning is idempotent (same index and unchanged
registry on a repeated key), sign-independent (the key `s[1:]` drops the
sign, so interning after a `+1` registration with a `-1` spec returns the
same index), and assigns first-seen indices starting at 1. -/
theorem surface_interning_properties (st : List SKey) (k k₂ : SKey)
    (kind : String) (args : List ℚ) (hne : k ≠ k₂) :
    intern (intern st k).2 k = ((intern st k).1, (intern st k).2)
    ∧ (intern (intern st (surfKey ⟨1, kind, args⟩)).2 (surfKey ⟨-1, kind, args⟩)).1
        = (intern st (surfKey ⟨1, kind, args⟩)).1
    ∧ (intern [] k).1 = 1
    ∧ (intern (intern [] k).2 k₂).1 = 2 := by
  have idem : ∀ (st' : List SKey) (k' : SKey),
      intern (intern st' k').2 k' = ((intern st' k').1, (intern st' k').2) := by
    intro st' k'
    unfold intern
    cases h : findIndex st' k' with
    | some i => simp [h]
    | none => simp [h, findIndex_append_self st' k' h]
  refine ⟨idem st k, ?_, ?_, ?_⟩
  · have hk : surfKey ⟨-1, kind, args⟩ = surfKey ⟨1, kind, args⟩ := rfl
    rw [hk, idem st (surfKey ⟨1, kind, args⟩)]
  · simp [intern, findIndex]
  · simp [intern, findIndex, hne]

/-- Witness for C3 at concrete keys. -/
theorem surface_interning_properties_witness :
    ((("CZ", [10]) : SKey) ≠ ("PZ", [5]))
    ∧ (intern (intern [] (("CZ", [10]) : SKey)).2 ("CZ", [10])
        = ((intern [] (("CZ", [10]) : SKey)).1, (intern [] (("CZ", [10]) : SKey)).2)
      ∧ (intern (intern [] (surfKey ⟨1, "SQ", [1]⟩)).2 (surfKey ⟨-1, "SQ", [1]⟩)).1
          = (intern [] (surfKey ⟨1, "SQ", [1]⟩)).1
      ∧ (intern ([] : List SKey) ("CZ", [10])).1 = 1
      ∧ (intern (intern [] (("CZ", [10]) : SKey)).2 ("PZ", [5])).1 = 2) :=
  ⟨by simp,
   surface_interning_properties [] ("CZ", [10]) ("PZ", [5]) "SQ" [1] (by simp)⟩

/-- Claim C5: an intersection converts its first operand at the original
placement `P` unchanged, its second operand at `P` shifted by the offset
(given in cm), and returns the concatenation, whose length is the sum of the
operands' surface counts. -/
theorem intersection_offset_propagation (ftag stag : String)
    (fattr sattr : Attrib) (off : PosRec) (position : Option PosRec) (P : Vec3)
    (la lb : List SurfSpec)
    (hfu : off.unit = "cm")
    (hf : ftag ≠ "intersection") (hs : stag ≠ "intersection")
    (hp : placementOf position = .ok P)
    (ha : convert_base ftag fattr P = .ok la)
    (hb : convert_base stag sattr (P.1 + off.x, P.2.1 + off.y, P.2.2 + off.z)
            = .ok lb) :
    convert_gdml_volume (.bool3 "intersection" (ftag, fattr) (stag, sattr) off)
        position
      = .ok (la ++ lb)
    ∧ (la ++ lb).length = la.length + lb.length := by
  refine ⟨?_, List.length_append _ _⟩
  have hps : ∀ q : PosRec, placementOf (some q) = convert_gdml_position q :=
    fun _ => rfl
  simp [convert_gdml_volume, convert_dispatch, hp, hf, hs, ha, hb, hfu, hps,
        convert_gdml_position, convert_gdml_unit,
        Bind.bind, Except.bind, Except.instMonad]

/-- Witness for C5: a full tube intersected with a unit ellipsoid offset by
(1, 2, 3) cm, at the default placement. -/
theorem intersection_offset_propagation_witness :
    convert_gdml_volume
        (.bool3 "intersection" ("tube", tubA) ("ellipsoid", ellA)
          ⟨1, 2, 3, "cm"⟩) none
      = .ok ([⟨-1, "CZ", [10]⟩, ⟨1, "PZ", [-10]⟩, ⟨-1, "PZ", [10]⟩]
          ++ [⟨-1, "SQ", [1, 1, 1, 0, 0, 0, 1, 1, 2, 3]⟩])
    ∧ ([⟨-1, "CZ", [10]⟩, ⟨1, "PZ", [-10]⟩, ⟨-1, "PZ", [10]⟩]
          ++ [⟨-1, "SQ", [1, 1, 1, 0, 0, 0, 1, 1, 2, 3]⟩] : List SurfSpec).length
        = ([⟨-1, "CZ", [10]⟩, ⟨1, "PZ", [-10]⟩, ⟨-1, "PZ", [10]⟩] :
            List SurfSpec).length
          + ([⟨-1, "SQ", [1, 1, 1, 0, 0, 0, 1, 1, 2, 3]⟩] : List SurfSpec).length :=
  intersection_offset_propagation "tube" "ellipsoid" tubA ellA ⟨1, 2, 3, "cm"⟩
    none (0, 0, 0) _ _ rfl (by simp) (by simp) rfl
    (by simp [convert_base, convert_gdml_tube, convert_gdml_unit, tubA,
              Bind.bind, Except.bind, Except.instMonad]
        norm_num)
    (by simp [convert_base, convert_gdml_ellipsoid, ellA])

/-- Claim C6: a tube whose dimensions resolve to radius 10 cm and height
20 cm, with a full sweep and no placement offset, converts to exactly the
cylinder `CZ 10` (sign −1), the bottom plane `PZ −10` (sign +1) and the top
plane `PZ +10` (sign −1). -/
theorem tube_full_sweep_conversion (a : Attrib) (u : ℚ)
    (h0 : a.startphi = 0) (h1 : 360 ≤ a.deltaphi)
    (hu : convert_gdml_unit a.lunit = .ok u)
    (hr : a.rmax * u = 10) (hz : a.z * u = 20) :
    convert_gdml_volume (.base "tube" a) none =
      .ok [⟨-1, "CZ", [10]⟩, ⟨1, "PZ", [-10]⟩, ⟨-1, "PZ", [10]⟩] := by
  have h1' : ¬ a.deltaphi < 360 := not_lt.mpr h1
  simp [convert_gdml_volume, convert_dispatch, convert_base, convert_gdml_tube,
        placementOf, h0, h1', hu, hr, hz, Bind.bind, Except.bind, Except.instMonad]
  norm_num

/-- Witness for C6: the fixture tube (rmax 10, z 20, lunit cm). -/
theorem tube_full_sweep_conversion_witness :
    convert_gdml_volume (.base "tube" tubA) none =
      .ok [⟨-1, "CZ", [10]⟩, ⟨1, "PZ", [-10]⟩, ⟨-1, "PZ", [10]⟩] :=
  tube_full_sweep_conversion tubA 1 (by simp [tubA]) (by norm_num [tubA])
    (by simp [tubA, convert_gdml_unit]) (by norm_num [tubA]) (by norm_num [tubA])

/-- Claim C7: a boolean solid tagged `union` or `subtraction` (at any
placement that resolves) fails with the `NotImplemented` condition naming
the operator, and no surface list is produced. -/
theorem union_subtraction_unsupported (tag : String) (f s : String × Attrib)
    (off : PosRec) (position : Option PosRec) (P : Vec3)
    (htag : tag = "union" ∨ tag = "subtraction")
    (hp : placementOf position = .ok P) :
    convert_gdml_volume (.bool3 tag f s off) position =
      .error (.notImplemented tag) := by
  rcases htag with h | h <;> subst h <;>
    simp [convert_gdml_volume, hp, Bind.bind, Except.bind, Except.instMonad]

/-- Witness for C7: a union of two tubes at the default placement. -/
theorem union_subtraction_unsupported_witness :
    convert_gdml_volume
        (.bool3 "union" ("tube", tubA) ("tube", tubB) ⟨0, 0, 0, "cm"⟩) none
      = .error (.notImplemented "union") :=
  union_subtraction_unsupported "union" ("tube", tubA) ("tube", tubB)
    ⟨0, 0, 0, "cm"⟩ none (0, 0, 0) (Or.inl rfl) rfl

/-- Claim C8: if the recursive cell emission fails with any error, the whole
dump fails with that error and no deck is produced — in the source,
`process_cell(world)` (line 172) runs to completion before the output file
is opened (line 176). -/
theorem conversion_aborts_before_output (g : String) (w : DCell) (e : Err)
    (h : processCell emptyState w = .error e) :
    dump_mcnp g w = .error e := by
  simp [dump_mcnp, h, Bind.bind, Except.bind, Except.instMonad]

/-- Witness for C8: dumping a world whose solid is a union aborts with the
`NotImplemented "union"` error. -/
theorem conversion_aborts_before_output_witness :
    dump_mcnp "example.gdml" wUnion = .error (.notImplemented "union") :=
  conversion_aborts_before_output "example.gdml" wUnion (.notImplemented "union")
    (by simp [processCell, processChildren, wUnion, convert_gdml_volume,
              placementOf, Bind.bind, Except.bind, Except.instMonad])

/-- Claim C9: the ellipsoid converter never reads `lunit`, so any two values
of the attribute give identical surfaces; the tube converter does scale by
`lunit`, shown by the fixture tube whose surfaces change from cm to mm. -/
theorem ellipsoid_ignores_lunit :
    (∀ (a : Attrib) (p : Vec3) (u1 u2 : String),
      convert_gdml_ellipsoid (setLunit a u1) p
        = convert_gdml_ellipsoid (setLunit a u2) p)
    ∧ convert_gdml_tube (setLunit tubA "cm") (0, 0, 0)
        = .ok [⟨-1, "CZ", [10]⟩, ⟨1, "PZ", [-10]⟩, ⟨-1, "PZ", [10]⟩]
    ∧ convert_gdml_tube (setLunit tubA "mm") (0, 0, 0)
        = .ok [⟨-1, "CZ", [1]⟩, ⟨1, "PZ", [-1]⟩, ⟨-1, "PZ", [1]⟩]
    ∧ ([⟨-1, "CZ", [10]⟩, ⟨1, "PZ", [-10]⟩, ⟨-1, "PZ", [10]⟩] : List SurfSpec)
        ≠ [⟨-1, "CZ", [1]⟩, ⟨1, "PZ", [-1]⟩, ⟨-1, "PZ", [1]⟩] := by
  refine ⟨fun a p u1 u2 => rfl, ?_, ?_, ?_⟩
  · simp [convert_gdml_tube, convert_gdml_unit, setLunit, tubA,
          Bind.bind, Except.bind, Except.instMonad]
    norm_num
  · simp [convert_gdml_tube, convert_gdml_unit, setLunit, tubA,
          Bind.bind, Except.bind, Except.instMonad]
    norm_num
  · simp

/-- Claim C10 counterexample: the registry classes are defined inside the
body of `dump_mcnp`, so a second, successive run re-creates them empty.  On
the one-cell world `wOne` a complete run leaves exactly its own three
surfaces and one cell; any successive run starts again from `emptyState`, so
its first newly interned surface — the tube's `("CZ", [10])` — receives
index 1, not an index greater than 1, and the previous run's cells are not
in the cell list it sees. -/
theorem second_run_restarts_surface_indices :
    runSurfaces wOne = some [("CZ", [10]), ("PZ", [-10]), ("PZ", [10])]
    ∧ runCellCount wOne = some 1
    ∧ (intern emptyState.surfaces ("CZ", [10])).1 = 1
    ∧ ¬ 1 < (intern emptyState.surfaces ("CZ", [10])).1 := by
  have ht : convert_gdml_volume (.base "tube" tubA) none =
      .ok [⟨-1, "CZ", [10]⟩, ⟨1, "PZ", [-10]⟩, ⟨-1, "PZ", [10]⟩] := by
    simp [convert_gdml_volume, convert_dispatch, convert_base, convert_gdml_tube,
          convert_gdml_unit, placementOf, tubA, Bind.bind, Except.bind,
          Except.instMonad]
    norm_num
  refine ⟨?_, ?_, ?_, ?_⟩
  · simp [runSurfaces, runState, processCell, processChildren, wOne, ht, matA,
          registerOuter, intern, findIndex, surfKey, internMaterial,
          convert_gdml_unit, Bind.bind, Except.bind, Except.instMonad, emptyState]
    norm_num
  · simp [runCellCount, runState, processCell, processChildren, wOne, ht, matA,
          registerOuter, intern, findIndex, surfKey, internMaterial,
          convert_gdml_unit, Bind.bind, Except.bind, Except.instMonad, emptyState]
  · simp [intern, findIndex, emptyState]
  · simp [intern, findIndex, emptyState]

/-- Claim C10 (amended): within one run the registries are global, shared
across the whole recursion — on `wShared`, where both children reference the
same solid and material, the run ends with 6 surface keys (the shared
child's three interned once, not twice) and 2 material entries over 3 cells
— but the registries are not process-wide: every `dump_mcnp` invocation
starts from the empty `emptyState`, so successive runs are independent and
each restarts index assignment at 1. -/
theorem registries_shared_within_run_fresh_per_run :
    runSurfaces wShared = some [("CZ", [1]), ("PZ", [-1]), ("PZ", [1]),
      ("CZ", [10]), ("PZ", [-10]), ("PZ", [10])]
    ∧ runCellCount wShared = some 3
    ∧ runMatCount wShared = some 2
    ∧ ∀ (g : String) (w : DCell),
        dump_mcnp g w
          = (processCell emptyState w).map (fun r => renderDeck g r.2) := by
  have ht : convert_gdml_volume (.base "tube" tubA) none =
      .ok [⟨-1, "CZ", [10]⟩, ⟨1, "PZ", [-10]⟩, ⟨-1, "PZ", [10]⟩] := by
    simp [convert_gdml_volume, convert_dispatch, convert_base, convert_gdml_tube,
          convert_gdml_unit, placementOf, tubA, Bind.bind, Except.bind,
          Except.instMonad]
    norm_num
  have ht2 : convert_gdml_volume (.base "tube" tubB) none =
      .ok [⟨-1, "CZ", [1]⟩, ⟨1, "PZ", [-1]⟩, ⟨-1, "PZ", [1]⟩] := by
    simp [convert_gdml_volume, convert_dispatch, convert_base, convert_gdml_tube,
          convert_gdml_unit, placementOf, tubB, Bind.bind, Except.bind,
          Except.instMonad]
    norm_num
  refine ⟨?_, ?_, ?_, ?_⟩
  · simp [runSurfaces, runState, processCell, processChildren, wShared, ht, ht2,
          matA, matB, registerOuter, intern, findIndex, surfKey, internMaterial,
          convert_gdml_unit, Bind.bind, Except.bind, Except.instMonad, emptyState]
    norm_num
  · simp [runCellCount, runState, processCell, processChildren, wShared, ht, ht2,
          matA, matB, registerOuter, intern, findIndex, surfKey, internMaterial,
          convert_gdml_unit, Bind.bind, Except.bind, Except.instMonad, emptyState]
  · simp [runMatCount, runState, processCell, processChildren, wShared, ht, ht2,
          matA, matB, registerOuter, intern, findIndex, surfKey, internMaterial,
          convert_gdml_unit, Bind.bind, Except.bind, Except.instMonad, emptyState]
  · intro g w
    cases h : processCell emptyState w with
    | ok r => simp [dump_mcnp, h, Except.map, Bind.bind, Except.bind,
                    Except.instMonad]
    | error e => simp [dump_mcnp, h, Except.map, Bind.bind, Except.bind,
                       Except.instMonad]

/-- Claim C4: on a world with exactly two (leaf) child cells, referencing
distinct solids and distinct materials, the Emitter appends exactly three
cell records — the two children first with indices 1 and 2, the world last
with index 3 (post-order: both child indices strictly below the world's) —
and the world record's surface term is its own signed outer-surface indices
followed by each child's parenthesized OR-of-negated-indices boolean term;
each world outer index is the surface's sign times the registry index that
holds the surface's canonical key. -/
theorem emitter_two_children (wn n1 n2 : String) (wv v1 v2 : Volume)
    (wp p1 p2 : Option PosRec) (wm m1 m2 : GMaterial)
    (l1 l2 lw : List SurfSpec) (u1 u2 uw : ℚ)
    (hd12 : v1 ≠ v2) (hm12 : m1.name ≠ m2.name)
    (hv1 : convert_gdml_volume v1 p1 = .ok l1)
    (hv2 : convert_gdml_volume v2 p2 = .ok l2)
    (hvw : convert_gdml_volume wv wp = .ok lw)
    (hu1 : convert_gdml_unit m1.dunit = .ok u1)
    (hu2 : convert_gdml_unit m2.dunit = .ok u2)
    (huw : convert_gdml_unit wm.dunit = .ok uw) :
    ∃ (term : String) (st : DumpState) (o1 o2 ow : List Int)
      (c1r c2r wr : CellRec),
      processCell emptyState
          (.mk wn wv wp wm [.mk n1 v1 p1 m1 [], .mk n2 v2 p2 m2 []])
        = .ok (term, st)
      ∧ st.cells = [c1r, c2r, wr]
      ∧ c1r.name = n1 ∧ c2r.name = n2 ∧ wr.name = wn
      ∧ c1r.index = 1 ∧ c2r.index = 2 ∧ wr.index = 3
      ∧ c1r.index < wr.index ∧ c2r.index < wr.index
      ∧ o1.length = l1.length ∧ o2.length = l2.length ∧ ow.length = lw.length
      ∧ c1r.surfaces = String.intercalate " " (o1.map toString)
      ∧ c2r.surfaces = String.intercalate " " (o2.map toString)
      ∧ wr.surfaces
          = String.intercalate " " (ow.map toString ++ [innerTerm o1, innerTerm o2])
      ∧ term = innerTerm ow
      ∧ (∀ j s, lw.get? j = some s → ∃ i : Nat, 0 < i
          ∧ ow.get? j = some (s.sign * (i : Int))
          ∧ st.surfaces.get? (i - 1) = some (surfKey s)) := by
  obtain ⟨r1, ms1, hm1⟩ := internMaterial_ok ([] : List (String × MatRec)) m1 u1 hu1
  obtain ⟨O1, S1, hro1⟩ : ∃ a b, registerOuter ([] : List SKey) l1 = (a, b) :=
    ⟨_, _, rfl⟩
  obtain ⟨r2, ms2, hm2⟩ := internMaterial_ok ms1 m2 u2 hu2
  obtain ⟨O2, S2, hro2⟩ : ∃ a b, registerOuter S1 l2 = (a, b) := ⟨_, _, rfl⟩
  obtain ⟨rw, msw, hmw⟩ := internMaterial_ok ms2 wm uw huw
  obtain ⟨OW, SW, hrow⟩ : ∃ a b, registerOuter S2 lw = (a, b) := ⟨_, _, rfl⟩
  have hmain : processCell emptyState
      (.mk wn wv wp wm [.mk n1 v1 p1 m1 [], .mk n2 v2 p2 m2 []])
    = .ok (innerTerm OW,
      ⟨SW,
       [⟨n1, 1, r1.index, r1.density, String.intercalate " " (O1.map toString)⟩,
        ⟨n2, 2, r2.index, r2.density, String.intercalate " " (O2.map toString)⟩,
        ⟨wn, 3, rw.index, rw.density,
          String.intercalate " "
            (OW.map toString ++ [innerTerm O1, innerTerm O2])⟩],
       msw⟩) := by
    simp [processCell, processChildren, hv1, hv2, hvw, hm1, hm2, hmw,
          hro1, hro2, hrow, emptyState, Bind.bind, Except.bind, Except.instMonad]
  have hlen1 : O1.length = l1.length := by
    have := registerOuter_length ([] : List SKey) l1
    rwa [hro1] at this
  have hlen2 : O2.length = l2.length := by
    have := registerOuter_length S1 l2
    rwa [hro2] at this
  have hlenw : OW.length = lw.length := by
    have := registerOuter_length S2 lw
    rwa [hrow] at this
  have hsound : ∀ j s, lw.get? j = some s → ∃ i : Nat, 0 < i
      ∧ OW.get? j = some (s.sign * (i : Int))
      ∧ SW.get? (i - 1) = some (surfKey s) := by
    intro j s hjs
    have := registerOuter_sound S2 lw j s hjs
    rwa [hrow] at this
  exact ⟨innerTerm OW, _, O1, O2, OW, _, _, _, hmain, rfl, rfl, rfl, rfl, rfl,
    rfl, rfl, by norm_num, by norm_num, hlen1, hlen2, hlenw, rfl, rfl, rfl, rfl,
    hsound⟩

/-- Witness for C4: a tube world with two distinct tube children and three
distinct materials. -/
theorem emitter_two_children_witness :
    ∃ (term : String) (st : DumpState) (o1 o2 ow : List Int)
      (c1r c2r wr : CellRec),
      processCell emptyState
          (.mk "w" (.base "tube" tubA) none matA
            [.mk "c1" (.base "tube" tubB) none matB [],
             .mk "c2" (.base "tube" tubC) none matC []])
        = .ok (term, st)
      ∧ st.cells = [c1r, c2r, wr]
      ∧ c1r.name = "c1" ∧ c2r.name = "c2" ∧ wr.name = "w"
      ∧ c1r.index = 1 ∧ c2r.index = 2 ∧ wr.index = 3
      ∧ c1r.index < wr.index ∧ c2r.index < wr.index
      ∧ o1.length = ([⟨-1, "CZ", [1]⟩, ⟨1, "PZ", [-1]⟩, ⟨-1, "PZ", [1]⟩] :
          List SurfSpec).length
      ∧ o2.length = ([⟨-1, "CZ", [2]⟩, ⟨1, "PZ", [-2]⟩, ⟨-1, "PZ", [2]⟩] :
          List SurfSpec).length
      ∧ ow.length = ([⟨-1, "CZ", [10]⟩, ⟨1, "PZ", [-10]⟩, ⟨-1, "PZ", [10]⟩] :
          List SurfSpec).length
      ∧ c1r.surfaces = String.intercalate " " (o1.map toString)
      ∧ c2r.surfaces = String.intercalate " " (o2.map toString)
      ∧ wr.surfaces
          = String.intercalate " " (ow.map toString ++ [innerTerm o1, innerTerm o2])
      ∧ term = innerTerm ow
      ∧ (∀ j s, ([⟨-1, "CZ", [10]⟩, ⟨1, "PZ", [-10]⟩, ⟨-1, "PZ", [10]⟩] :
            List SurfSpec).get? j = some s → ∃ i : Nat, 0 < i
          ∧ ow.get? j = some (s.sign * (i : Int))
          ∧ st.surfaces.get? (i - 1) = some (surfKey s)) :=
  emitter_two_children "w" "c1" "c2" (.base "tube" tubA) (.base "tube" tubB)
    (.base "tube" tubC) none none none matA matB matC
    [⟨-1, "CZ", [1]⟩, ⟨1, "PZ", [-1]⟩, ⟨-1, "PZ", [1]⟩]
    [⟨-1, "CZ", [2]⟩, ⟨1, "PZ", [-2]⟩, ⟨-1, "PZ", [2]⟩]
    [⟨-1, "CZ", [10]⟩, ⟨1, "PZ", [-10]⟩, ⟨-1, "PZ", [10]⟩] 1 1 1
    (by norm_num [tubB, tubC])
    (by simp [matB, matC])
    (by simp [convert_gdml_volume, convert_dispatch, convert_base,
              convert_gdml_tube, convert_gdml_unit, placementOf, tubB,
              Bind.bind, Except.bind, Except.instMonad]
        norm_num)
    (by simp [convert_gdml_volume, convert_dispatch, convert_base,
              convert_gdml_tube, convert_gdml_unit, placementOf, tubC,
              Bind.bind, Except.bind, Except.instMonad]
        norm_num)
    (by simp [convert_gdml_volume, convert_dispatch, convert_base,
              convert_gdml_tube, convert_gdml_unit, placementOf, tubA,
              Bind.bind, Except.bind, Except.instMonad]
        norm_num)
    (by simp [matB, convert_gdml_unit])
    (by simp [matC, convert_gdml_unit])
    (by simp [matA, convert_gdml_unit])

end Gdnp
